import Mathlib

/-!
Shallow embedding of `control.py` (the `Control` class of the fakir firmware) in Lean 4,
together with theorems settling the specification claims about it.

Modelling conventions:
* Python's insertion-ordered dicts (`self.sensors`, `hw.relays`, the JSON document) are
  association lists; `dictGet` and `dictInsert` mirror `d.get(k)` and `d[k] = v`.
* Machine floats (sensor values, thresholds, the literal `0.9`) are idealized as exact
  rationals; every claim is evaluated only at values where float and rational semantics agree.
* Fallible code is `Except Unit`: a `.error ()` result marks a point where the Python code
  would raise an uncaught exception (for `handle_sensor`, the `TypeError` from comparing a
  float with `None`).
* External hardware (sensor buses, DHT sensors, relays, display) is passed in as data: a
  temperature bus is its scan result paired with the per-address temperature it reads back,
  a DHT sensor is its (temperature, humidity) pair, a relay is its raw output value.
-/

/-- A sensor reading: association list from key (`"t"` / `"h"`) to the measured value,
idealized as an exact rational. -/
abbrev Reading := List (String × ℚ)

/-- The sensor reading table `self.sensors`: insertion-ordered dict from sensor id to
its reading. -/
abbrev Table := List (String × Reading)

/-- A relay object of the hardware layer; `value` is the raw pin output returned by
`value()`. -/
structure Relay where
  value : ℕ
deriving DecidableEq, Repr

/-- `hw.relays`: insertion-ordered dict from relay name to relay object. -/
abbrev RelayMap := List (String × Relay)

/-- Python `d.get(key)` on an insertion-ordered dict modelled as an association list. -/
def dictGet {α : Type} : List (String × α) → String → Option α
  | [], _ => none
  | (k, v) :: rest, key => if k = key then some v else dictGet rest key

/-- Python `d.get(key)` where the key may itself be `None` (as for an unconfigured channel
sensor id): `d.get(None)` returns `None`, since no string key equals `None`. -/
def dictGetOpt {α : Type} (d : List (String × α)) : Option String → Option α
  | none => none
  | some k => dictGet d k

/-- Python dict assignment `d[key] = v`: replaces the value at an existing key in place
(keeping its position), otherwise appends the new binding at the end. -/
def dictInsert {α : Type} : List (String × α) → String → α → List (String × α)
  | [], key, v => [(key, v)]
  | (k0, v0) :: rest, key, v =>
      if k0 = key then (key, v) :: rest else (k0, v0) :: dictInsert rest key v

/-- Module constant `default_check_interval`. -/
def default_check_interval : ℕ := 30000

/-- Module constant `default_sensor_interval`. -/
def default_sensor_interval : ℕ := 10000

/-- Module constant `default_prep_interval`. -/
def default_prep_interval : ℕ := 800

/-- Module constant `default_display_interval`. -/
def default_display_interval : ℕ := 1000

/-- The state of a `Control` object: the configuration stored by `__init__` plus the
mutable reading table and last-read timestamp. The hardware timer handle is external
state and is not modelled. -/
structure Control where
  check_interval : ℕ
  sensor_interval : ℕ
  prep_interval : ℕ
  display_interval : ℕ
  display_f : Bool
  temp1_low : Option ℚ
  temp1_high : Option ℚ
  temp1_id : Option String
  temp2_low : Option ℚ
  temp2_high : Option ℚ
  temp2_id : Option String
  humid_low : Option ℚ
  humid_high : Option ℚ
  humid_id : Option String
  sensors : Table
  last_read : ℕ
deriving DecidableEq, Repr

/-- Python `x or default` for an optional integer argument: both `None` and `0` are falsy,
so either one selects the default. -/
def pyOr (x : Option ℕ) (d : ℕ) : ℕ :=
  match x with
  | none => d
  | some n => if n = 0 then d else n

/-- `Control.__init__`: stores each interval through the `x or default` idiom, the
display-units flag and the three threshold triples verbatim, and initializes an empty
reading table and a zeroed last-read timestamp. -/
def Control.init (check_interval sensor_interval prep_interval display_interval : Option ℕ)
    (display_f : Bool)
    (temp1_low temp1_high : Option ℚ) (temp1_id : Option String)
    (temp2_low temp2_high : Option ℚ) (temp2_id : Option String)
    (humid_low humid_high : Option ℚ) (humid_id : Option String) : Control :=
  { check_interval := pyOr check_interval default_check_interval
    sensor_interval := pyOr sensor_interval default_sensor_interval
    prep_interval := pyOr prep_interval default_prep_interval
    display_interval := pyOr display_interval default_display_interval
    display_f := display_f
    temp1_low := temp1_low
    temp1_high := temp1_high
    temp1_id := temp1_id
    temp2_low := temp2_low
    temp2_high := temp2_high
    temp2_id := temp2_id
    humid_low := humid_low
    humid_high := humid_high
    humid_id := humid_id
    sensors := []
    last_read := 0 }

/-- Python `int(q)` on an exact rational: truncation toward zero. -/
def pyInt (q : ℚ) : ℤ := if 0 ≤ q then ⌊q⌋ else -⌊-q⌋

/-- `check_delta = int(self.check_interval * 0.9)` computed at the top of `Control.loop`. -/
def check_delta (check_interval : ℕ) : ℤ := pyInt ((check_interval : ℚ) * (0.9 : ℚ))

/-- `display_delta = int(self.display_interval * 0.9)` computed at the top of
`Control.loop`. -/
def display_delta (display_interval : ℕ) : ℤ := pyInt ((display_interval : ℚ) * (0.9 : ℚ))

/-- Claim C8: `loop` computes `check_delta` as the floor of 0.9 times `check_interval` and
`display_delta` as the floor of 0.9 times `display_interval`; for `check_interval = 30000`
and `display_interval = 1000` the computed values are exactly 27000 and 900. -/
theorem loop_deltas_floor :
    check_delta 30000 = 27000 ∧ display_delta 1000 = 900 ∧
    (∀ n : ℕ, check_delta n = ⌊(0.9 : ℚ) * (n : ℚ)⌋) ∧
    (∀ n : ℕ, display_delta n = ⌊(0.9 : ℚ) * (n : ℚ)⌋) := by
  have hgen : ∀ n : ℕ, pyInt ((n : ℚ) * (0.9 : ℚ)) = ⌊(0.9 : ℚ) * (n : ℚ)⌋ := by
    intro n
    have hpos : (0 : ℚ) ≤ (n : ℚ) * (0.9 : ℚ) := by positivity
    simp [pyInt, hpos, mul_comm]
  refine ⟨?_, ?_, fun n => hgen n, fun n => hgen n⟩
  · rw [check_delta, show ((30000 : ℕ) : ℚ) * (0.9 : ℚ) = (27000 : ℚ) by norm_num]
    rw [pyInt]
    norm_num
  · rw [display_delta, show ((1000 : ℕ) : ℚ) * (0.9 : ℚ) = (900 : ℚ) by norm_num]
    rw [pyInt]
    norm_num

/-- Claim C9: for every construction of `Control`, passing `0` for any of the four interval
parameters yields the same configuration as passing `None`, and the stated defaults
(30000, 10000, 800, 1000 ms) are stored, so a zero interval can never be configured. -/
theorem init_zero_interval_is_default :
    ∀ (ci si pi di : Option ℕ) (df : Bool) (t1l t1h : Option ℚ) (t1i : Option String)
      (t2l t2h : Option ℚ) (t2i : Option String) (hl hh : Option ℚ) (hi : Option String),
      Control.init (some 0) si pi di df t1l t1h t1i t2l t2h t2i hl hh hi =
        Control.init none si pi di df t1l t1h t1i t2l t2h t2i hl hh hi ∧
      Control.init ci (some 0) pi di df t1l t1h t1i t2l t2h t2i hl hh hi =
        Control.init ci none pi di df t1l t1h t1i t2l t2h t2i hl hh hi ∧
      Control.init ci si (some 0) di df t1l t1h t1i t2l t2h t2i hl hh hi =
        Control.init ci si none di df t1l t1h t1i t2l t2h t2i hl hh hi ∧
      Control.init ci si pi (some 0) df t1l t1h t1i t2l t2h t2i hl hh hi =
        Control.init ci si pi none df t1l t1h t1i t2l t2h t2i hl hh hi ∧
      (Control.init (some 0) (some 0) (some 0) (some 0) df t1l t1h t1i t2l t2h t2i hl hh
        hi).check_interval = 30000 ∧
      (Control.init (some 0) (some 0) (some 0) (some 0) df t1l t1h t1i t2l t2h t2i hl hh
        hi).sensor_interval = 10000 ∧
      (Control.init (some 0) (some 0) (some 0) (some 0) df t1l t1h t1i t2l t2h t2i hl hh
        hi).prep_interval = 800 ∧
      (Control.init (some 0) (some 0) (some 0) (some 0) df t1l t1h t1i t2l t2h t2i hl hh
        hi).display_interval = 1000 := by
  intro ci si pi di df t1l t1h t1i t2l t2h t2i hl hh hi
  refine ⟨?_, ?_, ?_, ?_, rfl, rfl, rfl, rfl⟩ <;>
    simp [Control.init, pyOr, default_check_interval, default_sensor_interval,
      default_prep_interval, default_display_interval]

/-- The two relay pin operations invoked by the hysteresis logic: `off()` writes raw value 0
(active-low: physically activates the device), `on()` writes raw value 1 (physically
deactivates). -/
inductive RelayCmd
  | off
  | on
deriving DecidableEq, Repr

/-- The effect of `relay.off()` / `relay.on()` on the named relay inside `hw.relays`:
the named relay's raw value becomes `b`, every other relay is unchanged. -/
def setRelay (relays : RelayMap) (name : String) (b : ℕ) : RelayMap :=
  relays.map (fun p => if p.1 = name then (p.1, ⟨b⟩) else p)

/-- `Control.handle_sensor`: looks up the sensor, the reading key, and the relay, returning
early (no relay operation, relays unchanged) if any is missing; otherwise compares the value
against the thresholds. The result carries the relay map after the call and the relay
operation invoked, if any; `.error ()` marks the uncaught `TypeError` Python raises when the
comparison `value <= low` (or `value >= high`) meets a `None` threshold. -/
def handle_sensor (sensors : Table) (sensor_name : Option String) (k : String)
    (low high : Option ℚ) (relays : RelayMap) (relay_name : String) :
    Except Unit (RelayMap × Option RelayCmd) :=
  match dictGetOpt sensors sensor_name with
  | none => .ok (relays, none)
  | some sensor =>
    match dictGet sensor k with
    | none => .ok (relays, none)
    | some value =>
      match dictGet relays relay_name with
      | none => .ok (relays, none)
      | some _ =>
        match low with
        | none => .error ()
        | some l =>
          if value ≤ l then .ok (setRelay relays relay_name 0, some RelayCmd.off)
          else
            match high with
            | none => .error ()
            | some h =>
              if value ≥ h then .ok (setRelay relays relay_name 1, some RelayCmd.on)
              else .ok (relays, none)

/-- `Control.do_maintenance`: evaluates the three configured channels in fixed order
(temp1 → heat1, temp2 → heat2, humidity → humidifier), threading the relay state; an
exception raised by any `handle_sensor` call propagates uncaught. -/
def do_maintenance (c : Control) (relays : RelayMap) : Except Unit RelayMap := do
  let r1 ← handle_sensor c.sensors c.temp1_id "t" c.temp1_low c.temp1_high relays "heat1"
  let r2 ← handle_sensor c.sensors c.temp2_id "t" c.temp2_low c.temp2_high r1.1 "heat2"
  let r3 ← handle_sensor c.sensors c.humid_id "h" c.humid_low c.humid_high r2.1 "humidifier"
  return r3.1

/-- Claim C2: when the sensor id is found, the key is present and the relay exists,
`handle_sensor` invokes the relay's `off` operation (physical activation) iff
`value <= low`, else the `on` operation (physical deactivation) iff `value >= high`, else
no relay operation; both comparisons are inclusive, so `value = low` activates and
`value = high` (above the dead band) deactivates. -/
theorem handle_sensor_thresholds :
    ∀ (sensors : Table) (name k : String) (reading : Reading) (v l h : ℚ)
      (relays : RelayMap) (relay_name : String),
      dictGet sensors name = some reading →
      dictGet reading k = some v →
      (dictGet relays relay_name).isSome →
      (handle_sensor sensors (some name) k (some l) (some h) relays relay_name =
        (if v ≤ l then Except.ok (setRelay relays relay_name 0, some RelayCmd.off)
         else if v ≥ h then Except.ok (setRelay relays relay_name 1, some RelayCmd.on)
         else Except.ok (relays, none))) ∧
      (v = l →
        handle_sensor sensors (some name) k (some l) (some h) relays relay_name =
          Except.ok (setRelay relays relay_name 0, some RelayCmd.off)) ∧
      (l < v → v = h →
        handle_sensor sensors (some name) k (some l) (some h) relays relay_name =
          Except.ok (setRelay relays relay_name 1, some RelayCmd.on)) := by
  intro sensors name k reading v l h relays relay_name hsensor hkey hrelay
  obtain ⟨rel, hrel⟩ := Option.isSome_iff_exists.mp hrelay
  have hmain :
      handle_sensor sensors (some name) k (some l) (some h) relays relay_name =
        (if v ≤ l then Except.ok (setRelay relays relay_name 0, some RelayCmd.off)
         else if v ≥ h then Except.ok (setRelay relays relay_name 1, some RelayCmd.on)
         else Except.ok (relays, none)) := by
    simp [handle_sensor, dictGetOpt, hsensor, hkey, hrel]
  refine ⟨hmain, ?_, ?_⟩
  · intro hvl
    rw [hmain, if_pos (le_of_eq hvl)]
  · intro hlv hvh
    rw [hmain, if_neg (not_le.mpr hlv), if_pos hvh.ge]

/-- Witness for C2: a concrete channel with `low = 20`, `high = 25` and a reading of 19
activates (relay `off`, raw value driven to 0). -/
theorem handle_sensor_thresholds_witness :
    dictGet [("s1", [("t", (19 : ℚ))])] "s1" = some [("t", (19 : ℚ))] ∧
    dictGet [("t", (19 : ℚ))] "t" = some (19 : ℚ) ∧
    (dictGet [("heat1", Relay.mk 1)] "heat1").isSome ∧
    ((handle_sensor [("s1", [("t", (19 : ℚ))])] (some "s1") "t" (some 20) (some 25)
        [("heat1", Relay.mk 1)] "heat1" =
      (if (19 : ℚ) ≤ 20 then
        Except.ok (setRelay [("heat1", Relay.mk 1)] "heat1" 0, some RelayCmd.off)
       else if (19 : ℚ) ≥ 25 then
        Except.ok (setRelay [("heat1", Relay.mk 1)] "heat1" 1, some RelayCmd.on)
       else Except.ok ([("heat1", Relay.mk 1)], none))) ∧
     ((19 : ℚ) = 20 →
        handle_sensor [("s1", [("t", (19 : ℚ))])] (some "s1") "t" (some 20) (some 25)
          [("heat1", Relay.mk 1)] "heat1" =
          Except.ok (setRelay [("heat1", Relay.mk 1)] "heat1" 0, some RelayCmd.off)) ∧
     ((20 : ℚ) < 19 → (19 : ℚ) = 25 →
        handle_sensor [("s1", [("t", (19 : ℚ))])] (some "s1") "t" (some 20) (some 25)
          [("heat1", Relay.mk 1)] "heat1" =
          Except.ok (setRelay [("heat1", Relay.mk 1)] "heat1" 1, some RelayCmd.on))) :=
  ⟨by decide, by decide, by decide,
    handle_sensor_thresholds [("s1", [("t", (19 : ℚ))])] "s1" "t" [("t", (19 : ℚ))]
      19 20 25 [("heat1", Relay.mk 1)] "heat1" (by decide) (by decide) (by decide)⟩

/-- Claim C4: when the sensor id is absent from the reading table, or the reading lacks the
requested key, or no relay of the given name exists, `handle_sensor` performs no relay
operation and does not raise: the result is `.ok` with the relay state unchanged. -/
theorem handle_sensor_missing_skips :
    ∀ (sensors : Table) (sensor_name : Option String) (k : String) (low high : Option ℚ)
      (relays : RelayMap) (relay_name : String),
      (dictGetOpt sensors sensor_name = none ∨
       (∃ reading, dictGetOpt sensors sensor_name = some reading ∧
          dictGet reading k = none) ∨
       (∃ reading v, dictGetOpt sensors sensor_name = some reading ∧
          dictGet reading k = some v ∧ dictGet relays relay_name = none)) →
      handle_sensor sensors sensor_name k low high relays relay_name =
        Except.ok (relays, none) := by
  intro sensors sensor_name k low high relays relay_name hcase
  rcases hcase with hnone | ⟨reading, hr, hk⟩ | ⟨reading, v, hr, hk, hrel⟩
  · simp [handle_sensor, hnone]
  · simp [handle_sensor, hr, hk]
  · simp [handle_sensor, hr, hk, hrel]

/-- Witness for C2's companion C4: the sensor id `"gone"` is absent from an empty reading
table, so the channel is skipped with the relay map unchanged. -/
theorem handle_sensor_missing_skips_witness :
    (dictGetOpt ([] : Table) (some "gone") = none ∨
     (∃ reading, dictGetOpt ([] : Table) (some "gone") = some reading ∧
        dictGet reading "t" = none) ∨
     (∃ reading v, dictGetOpt ([] : Table) (some "gone") = some reading ∧
        dictGet reading "t" = some v ∧
        dictGet [("heat1", Relay.mk 1)] "heat1" = none)) ∧
    handle_sensor ([] : Table) (some "gone") "t" (some 20) (some 25)
      [("heat1", Relay.mk 1)] "heat1" = Except.ok ([("heat1", Relay.mk 1)], none) :=
  ⟨Or.inl (by decide),
    handle_sensor_missing_skips ([] : Table) (some "gone") "t" (some 20) (some 25)
      [("heat1", Relay.mk 1)] "heat1" (Or.inl (by decide))⟩

/-- Claim C10: when the lookups all succeed but the configured low threshold is `None`,
the comparison `value <= low` raises a `TypeError` instead of logging and skipping, and
`do_maintenance` does not catch it, so the fault is fatal (shown here on channel 1). -/
theorem handle_sensor_none_low_fatal :
    ∀ (c : Control) (relays : RelayMap) (name : String) (reading : Reading) (v : ℚ),
      c.temp1_id = some name →
      dictGet c.sensors name = some reading →
      dictGet reading "t" = some v →
      (dictGet relays "heat1").isSome →
      c.temp1_low = none →
      handle_sensor c.sensors c.temp1_id "t" c.temp1_low c.temp1_high relays "heat1" =
        Except.error () ∧
      do_maintenance c relays = Except.error () := by
  intro c relays name reading v hid hsensor hkey hrelay hlow
  obtain ⟨rel, hrel⟩ := Option.isSome_iff_exists.mp hrelay
  have hfail :
      handle_sensor c.sensors c.temp1_id "t" c.temp1_low c.temp1_high relays "heat1" =
        Except.error () := by
    simp [handle_sensor, dictGetOpt, hid, hsensor, hkey, hrel, hlow]
  refine ⟨hfail, ?_⟩
  simp only [do_maintenance, hfail]
  rfl

/-- Witness for C10: a control object whose channel 1 has a sensor id and a live reading
but a `None` low threshold makes `do_maintenance` fail fatally. -/
theorem handle_sensor_none_low_fatal_witness :
    (Control.mk 30000 10000 800 1000 false none none (some "s1") none none none none none
        none [("s1", [("t", (22 : ℚ))])] 0).temp1_id = some "s1" ∧
    dictGet (Control.mk 30000 10000 800 1000 false none none (some "s1") none none none
        none none none [("s1", [("t", (22 : ℚ))])] 0).sensors "s1" =
      some [("t", (22 : ℚ))] ∧
    dictGet [("t", (22 : ℚ))] "t" = some (22 : ℚ) ∧
    (dictGet [("heat1", Relay.mk 1)] "heat1").isSome ∧
    (Control.mk 30000 10000 800 1000 false none none (some "s1") none none none none none
        none [("s1", [("t", (22 : ℚ))])] 0).temp1_low = none ∧
    (handle_sensor (Control.mk 30000 10000 800 1000 false none none (some "s1") none none
        none none none none [("s1", [("t", (22 : ℚ))])] 0).sensors
      (Control.mk 30000 10000 800 1000 false none none (some "s1") none none none none
        none none [("s1", [("t", (22 : ℚ))])] 0).temp1_id "t"
      (Control.mk 30000 10000 800 1000 false none none (some "s1") none none none none
        none none [("s1", [("t", (22 : ℚ))])] 0).temp1_low
      (Control.mk 30000 10000 800 1000 false none none (some "s1") none none none none
        none none [("s1", [("t", (22 : ℚ))])] 0).temp1_high
      [("heat1", Relay.mk 1)] "heat1" = Except.error () ∧
     do_maintenance (Control.mk 30000 10000 800 1000 false none none (some "s1") none none
        none none none none [("s1", [("t", (22 : ℚ))])] 0) [("heat1", Relay.mk 1)] =
       Except.error ()) :=
  ⟨rfl, by decide, by decide, by decide, rfl,
    handle_sensor_none_low_fatal
      (Control.mk 30000 10000 800 1000 false none none (some "s1") none none none none
        none none [("s1", [("t", (22 : ℚ))])] 0)
      [("heat1", Relay.mk 1)] "s1" [("t", (22 : ℚ))] 22 rfl (by decide) (by decide)
      (by decide) rfl⟩

/-- `Control.relay_state`: the dict comprehension
`{k: v.value() for k, v in hw.relays.items()}` — each relay name mapped to its raw
hardware value, unmodified. -/
def relay_state (relays : RelayMap) : List (String × ℕ) :=
  relays.map (fun p => (p.1, p.2.value))

/-- One digit of the display relay summary, `'%d' % (not x.value(),)`: Python `not` on the
raw value gives `True` (printed `1`) exactly when the raw value is 0. -/
def relayDigit (r : Relay) : String := if r.value = 0 then "1" else "0"

/-- The list comprehension `['%d' % (not x.value(),) for x in hw.relays.values()]`, in
hardware-declared relay order. -/
def relayDigits (relays : RelayMap) : List String :=
  relays.map (fun p => relayDigit p.2)

/-- The relay-summary display line `'r%s' % (''.join(r))` of `task_display`. -/
def relayLine (relays : RelayMap) : String := "r" ++ String.join (relayDigits relays)

/-- Claim C3: for every relay and state, the status snapshot maps the relay name to its raw
hardware value unmodified, while the display relay-summary line shows, at the same
position, the logical inverse of that raw value (`"1"` iff the raw value is 0), prefixed
with `r` and in hardware-declared relay order. -/
theorem snapshot_raw_display_inverted :
    ∀ (relays : RelayMap) (i : ℕ) (name : String) (r : Relay),
      relays[i]? = some (name, r) →
      (relay_state relays)[i]? = some (name, r.value) ∧
      (relayDigits relays)[i]? = some (if r.value = 0 then "1" else "0") ∧
      relayLine relays = "r" ++ String.join (relayDigits relays) := by
  intro relays i name r h
  refine ⟨?_, ?_, rfl⟩
  · simp [relay_state, List.getElem?_map, h]
  · simp [relayDigits, List.getElem?_map, h, relayDigit]

/-- Witness for C3: a single relay with raw value 1 — the snapshot reports 1, the display
digit is `"0"`. -/
theorem snapshot_raw_display_inverted_witness :
    ([("heat1", Relay.mk 1)] : RelayMap)[0]? = some ("heat1", Relay.mk 1) ∧
    ((relay_state [("heat1", Relay.mk 1)])[0]? = some ("heat1", (Relay.mk 1).value) ∧
     (relayDigits [("heat1", Relay.mk 1)])[0]? =
       some (if (Relay.mk 1).value = 0 then "1" else "0") ∧
     relayLine [("heat1", Relay.mk 1)] =
       "r" ++ String.join (relayDigits [("heat1", Relay.mk 1)])) :=
  ⟨rfl, snapshot_raw_display_inverted [("heat1", Relay.mk 1)] 0 "heat1" (Relay.mk 1) rfl⟩

/-- A value of the JSON document served by `handle_client`. -/
inductive JVal
  | jtable (t : Table)
  | jrelays (r : List (String × ℕ))
  | jnum (n : ℕ)
deriving DecidableEq, Repr

/-- The JSON document `handle_client` builds after draining the request — an ordered
key/value list exactly as inserted into the Python dict — paired with the closed flag set
by `client.close()`. -/
def clientResponse (sensors : Table) (relays : RelayMap) (last_read : ℕ) :
    List (String × JVal) × Bool :=
  ([("sensors", JVal.jtable sensors), ("relays", JVal.jrelays (relay_state relays)),
    ("last_read", JVal.jnum last_read)], true)

/-- `Control.handle_client`: reads and discards lines until an empty line (CRLF) or
end-of-stream (`readline` returning empty, modelled by the list running out), then sends
the snapshot document and closes the connection. -/
def handle_client (lines : List String) (sensors : Table) (relays : RelayMap)
    (last_read : ℕ) : List (String × JVal) × Bool :=
  match lines with
  | [] => clientResponse sensors relays last_read
  | l :: rest =>
      if l = "\r\n" then clientResponse sensors relays last_read
      else handle_client rest sensors relays last_read

/-- Claim C5: for every accepted connection, `handle_client` drains lines until CRLF or
end-of-stream, then sends a single JSON document with exactly the keys `sensors`, `relays`
and `last_read` reflecting in-memory state, and closes the connection; the request content
never changes the response. -/
theorem handle_client_snapshot :
    ∀ (lines : List String) (sensors : Table) (relays : RelayMap) (last_read : ℕ),
      handle_client lines sensors relays last_read =
        ([("sensors", JVal.jtable sensors), ("relays", JVal.jrelays (relay_state relays)),
          ("last_read", JVal.jnum last_read)], true) := by
  intro lines sensors relays last_read
  induction lines with
  | nil => rfl
  | cons l rest ih =>
      by_cases hl : l = "\r\n" <;> simp [handle_client, hl, ih, clientResponse]

/-- An observable action of `Control.start`: a display `show`, arming the periodic sensor
timer, a `relay.on()` call from `relays_off`, closing the listening socket, or disarming
the timer. -/
inductive Event
  | showText (s : String)
  | startTimer
  | relayOn (name : String)
  | closeSocket
  | stopTimer
deriving DecidableEq, Repr

/-- How the try-block of `Control.start` exits: the loop is `while True` and never returns
normally, so the only exits are a `KeyboardInterrupt` or some other raised fault. -/
inductive ExitKind
  | kbInterrupt
  | fault
deriving DecidableEq, Repr

/-- `Control.relays_off`: invokes `on()` (physical deactivation) on every relay in
`hw.relays`, in hardware-declared order. -/
def relays_off_events (relay_names : List String) : List Event :=
  relay_names.map Event.relayOn

/-- `Control.start`: after socket and poll setup, the try-block shows `"RUN "`, starts the
sensor timer and runs the loop until it exits with `e` after emitting `tryEvents`; a
`KeyboardInterrupt` is swallowed by the `except` clause, anything else propagates; the
`finally` clause always runs `relays_off`, `close_socket`, `stop_timer` and shows
`"STOP"`. The result is the full event trace plus the exception, if any, that escapes. -/
def startTrace (relay_names : List String) (tryEvents : List Event) (e : ExitKind) :
    List Event × Option ExitKind :=
  ([Event.showText "RUN ", Event.startTimer] ++ tryEvents ++
      (relays_off_events relay_names ++
        [Event.closeSocket, Event.stopTimer, Event.showText "STOP"]),
    match e with
    | .kbInterrupt => none
    | .fault => some .fault)

/-- The strings shown on the display during an event trace, in order. -/
def shownStrings (events : List Event) : List String :=
  events.filterMap (fun ev =>
    match ev with
    | .showText s => some s
    | _ => none)

/-- Claim C6: on every exit of the main loop inside `start` — the caught interrupt (which
is swallowed) or any other unwind (which propagates) — the cleanup runs in order:
`relays_off` invokes `on()` on every relay, the socket is closed, the timer stopped, and
`"STOP"` is the final string shown on the display. -/
theorem start_cleanup_invariant :
    ∀ (relay_names : List String) (tryEvents : List Event) (e : ExitKind),
      (startTrace relay_names tryEvents e).1 =
        [Event.showText "RUN ", Event.startTimer] ++ tryEvents ++
          (relay_names.map Event.relayOn ++
            [Event.closeSocket, Event.stopTimer, Event.showText "STOP"]) ∧
      (shownStrings (startTrace relay_names tryEvents e).1).getLast? = some "STOP" ∧
      (startTrace relay_names tryEvents ExitKind.kbInterrupt).2 = none ∧
      (startTrace relay_names tryEvents ExitKind.fault).2 = some ExitKind.fault := by
  intro relay_names tryEvents e
  have hdigits : shownStrings (relays_off_events relay_names) = [] := by
    induction relay_names with
    | nil => rfl
    | cons n rest ih =>
        rw [relays_off_events] at ih ⊢
        rw [List.map_cons, shownStrings, List.filterMap_cons]
        exact ih
  refine ⟨rfl, ?_, rfl, rfl⟩
  have hsplit :
      shownStrings (startTrace relay_names tryEvents e).1 =
        ("RUN " :: shownStrings tryEvents) ++ [ "STOP" ] := by
    simp [startTrace, shownStrings, List.filterMap_append] at hdigits ⊢
    simpa [shownStrings] using hdigits
  rw [hsplit, List.getLast?_concat]


/-- Modelled from the spec: the utility module (external to this slice) supplies the
Celsius-to-Fahrenheit conversion `utils.C2F` used by `task_display`; per the spec, 0.0 C
renders as 32.0 F and 100.0 C as 212.0 F, i.e. the standard affine conversion. -/
def C2F (c : ℚ) : ℚ := c * 9 / 5 + 32

/-- Python `'%0.1f' % v`, idealized over exact rationals: one decimal digit, rounding
half up; this agrees with float formatting at every exact one-decimal nonnegative value,
which is all the claims exercise. -/
def fmt1 (q : ℚ) : String :=
  toString (⌊q * 10 + 1 / 2⌋ / 10) ++ "." ++ toString (⌊q * 10 + 1 / 2⌋ % 10)

/-- One yield-step of the `task_display` generator: a sensor-key label step, a formatted
value step, or the relay-summary step; each carries the string passed to the display. -/
inductive DStep
  | label (s : String)
  | value (s : String)
  | relaySummary (s : String)
deriving DecidableEq, Repr

/-- The string actually shown for each step: value steps are shown with the trailing
padding of `'%s    ' % (v,)`, label and relay-summary steps verbatim. -/
def shownOf : DStep → String
  | .label s => s
  | .value s => s ++ "    "
  | .relaySummary s => s

/-- The formatted value for key `k`: `'%0.1fF' % (utils.C2F(v),)` when the key is `t` and
the Fahrenheit flag is set, `'%0.1fC' % (v,)` for `t` otherwise, and plain `'%0.1f' % (v,)`
for any other key (humidity). -/
def fmtValue (display_f : Bool) (k : String) (v : ℚ) : String :=
  if k = "t" ∧ display_f = true then fmt1 (C2F v) ++ "F"
  else if k = "t" then fmt1 v ++ "C"
  else fmt1 v

/-- The inner loop `for k, v in values.items()` of `task_display` for the sensor at index
`i`: each present key contributes a label step `S<index> <key>` and then a value step. -/
def displayKeySteps (display_f : Bool) (i : ℕ) : Reading → List DStep
  | [] => []
  | kv :: rest =>
      DStep.label ("S" ++ toString i ++ " " ++ kv.1) ::
        DStep.value (fmtValue display_f kv.1 kv.2) :: displayKeySteps display_f i rest

/-- The outer loop `for i, values in enumerate(self.sensors.values())` of `task_display`. -/
def displayRows (display_f : Bool) : ℕ → Table → List DStep
  | _, [] => []
  | i, (_, values) :: rest =>
      displayKeySteps display_f i values ++ displayRows display_f (i + 1) rest

/-- One full pass of the `task_display` generator body: all sensor label/value steps, then
the single relay-summary step. -/
def displayPass (sensors : Table) (display_f : Bool) (relays : RelayMap) : List DStep :=
  displayRows display_f 0 sensors ++ [DStep.relaySummary (relayLine relays)]

/-- The total number of present keys over all readings in the table. -/
def totalKeys (sensors : Table) : ℕ := (sensors.map (fun p => p.2.length)).sum

/-- The infinite yield sequence of `task_display` (for a fixed table, units flag and relay
state): the `while True` loop repeats the pass forever, so the n-th yield is the n-th step
of the pass, cyclically. -/
def taskDisplay (sensors : Table) (display_f : Bool) (relays : RelayMap) (n : ℕ) : DStep :=
  (displayPass sensors display_f relays).getD
    (n % (displayPass sensors display_f relays).length)
    (DStep.relaySummary (relayLine relays))

/-- A reading with m present keys contributes exactly 2 m label/value steps. -/
theorem displayKeySteps_length (display_f : Bool) (i : ℕ) :
    ∀ values : Reading, (displayKeySteps display_f i values).length = 2 * values.length := by
  intro values
  induction values with
  | nil => rfl
  | cons kv rest ih =>
      simp only [displayKeySteps, List.length_cons, ih]
      omega

/-- The sensor rows of a pass have twice as many steps as there are present keys,
independently of the starting index. -/
theorem displayRows_length (display_f : Bool) :
    ∀ (sensors : Table) (i : ℕ),
      (displayRows display_f i sensors).length = 2 * totalKeys sensors := by
  intro sensors
  induction sensors with
  | nil => intro i; rfl
  | cons p rest ih =>
      intro i
      simp only [displayRows, List.length_append, ih, displayKeySteps_length, totalKeys,
        List.map_cons, List.sum_cons]
      ring

/-- Claim C7: for the reading table `{"ds-ab12": {"t": 22.5}, "dht-0": {"t": 18.0,
"h": 55.0}}` with Celsius units, one full pass of `task_display` is exactly the 7
yield-steps `S0 t`, `22.5C`, `S1 t`, `18.0C`, `S1 h`, `55.0`, relay summary, in order; in
general each present key yields twice (label then formatted value, temperature as
`%0.1fC`/`%0.1fF` with conversion for Fahrenheit, humidity as `%0.1f`), and the sequence
never terminates (every pass is nonempty and the yield sequence repeats cyclically). -/
theorem task_display_sequence :
    (∀ relays : RelayMap,
      displayPass [("ds-ab12", [("t", (22.5 : ℚ))]),
          ("dht-0", [("t", (18 : ℚ)), ("h", (55 : ℚ))])] false relays =
        [DStep.label "S0 t", DStep.value "22.5C", DStep.label "S1 t", DStep.value "18.0C",
         DStep.label "S1 h", DStep.value "55.0",
         DStep.relaySummary (relayLine relays)]) ∧
    (∀ relays : RelayMap,
      (displayPass [("ds-ab12", [("t", (22.5 : ℚ))]),
          ("dht-0", [("t", (18 : ℚ)), ("h", (55 : ℚ))])] false relays).length = 7) ∧
    (∀ (sensors : Table) (display_f : Bool) (relays : RelayMap),
      (displayPass sensors display_f relays).length = 2 * totalKeys sensors + 1) ∧
    (∀ v : ℚ, fmtValue true "t" v = fmt1 (C2F v) ++ "F") ∧
    (∀ (sensors : Table) (display_f : Bool) (relays : RelayMap),
      0 < (displayPass sensors display_f relays).length) ∧
    (∀ (sensors : Table) (display_f : Bool) (relays : RelayMap) (n : ℕ),
      taskDisplay sensors display_f relays
          (n + (displayPass sensors display_f relays).length) =
        taskDisplay sensors display_f relays n) := by
  have hlen : ∀ (sensors : Table) (display_f : Bool) (relays : RelayMap),
      (displayPass sensors display_f relays).length = 2 * totalKeys sensors + 1 := by
    intro sensors display_f relays
    simp [displayPass, displayRows_length]
  have hrows : ∀ relays : RelayMap,
      displayPass [("ds-ab12", [("t", (22.5 : ℚ))]),
          ("dht-0", [("t", (18 : ℚ)), ("h", (55 : ℚ))])] false relays =
        [DStep.label "S0 t", DStep.value "22.5C", DStep.label "S1 t", DStep.value "18.0C",
         DStep.label "S1 h", DStep.value "55.0",
         DStep.relaySummary (relayLine relays)] := by
    intro relays
    have f1 : fmt1 (22.5 : ℚ) = "22.5" := by
      have h : ⌊(22.5 : ℚ) * 10 + 1 / 2⌋ = (225 : ℤ) := by norm_num
      rw [fmt1, h]
      rfl
    have f2 : fmt1 (18 : ℚ) = "18.0" := by
      have h : ⌊(18 : ℚ) * 10 + 1 / 2⌋ = (180 : ℤ) := by norm_num
      rw [fmt1, h]
      rfl
    have f3 : fmt1 (55 : ℚ) = "55.0" := by
      have h : ⌊(55 : ℚ) * 10 + 1 / 2⌋ = (550 : ℤ) := by norm_num
      rw [fmt1, h]
      rfl
    have hfixed :
        displayRows false 0 [("ds-ab12", [("t", (22.5 : ℚ))]),
            ("dht-0", [("t", (18 : ℚ)), ("h", (55 : ℚ))])] =
          [DStep.label "S0 t", DStep.value "22.5C", DStep.label "S1 t",
           DStep.value "18.0C", DStep.label "S1 h", DStep.value "55.0"] := by
      simp only [displayRows, displayKeySteps, fmtValue, f1, f2, f3]
      decide
    simp [displayPass, hfixed]
  refine ⟨hrows, ?_, hlen, ?_, ?_, ?_⟩
  · intro relays
    rw [hrows relays]
    rfl
  · intro v
    simp [fmtValue]
  · intro sensors display_f relays
    rw [hlen]
    exact Nat.succ_pos _
  · intro sensors display_f relays n
    rw [taskDisplay, taskDisplay, Nat.add_mod_right]

/-- The `(id, reading)` pairs `read_sensors` stores, in assignment order: for every
temperature bus, one `ds-<hexlified address>` entry with key `t` per scanned device (the
hardware bus is external and modelled as its scan result paired with the temperature read
back per address, already hexlified); then one `dht-<index>` entry with keys `t` and `h`
per combo sensor. -/
def readSensorsItems (sensors_ds : List (List (String × ℚ))) (sensors_dht : List (ℚ × ℚ)) :
    List (String × Reading) :=
  (sensors_ds.map (fun bus => bus.map (fun p => ("ds-" ++ p.1, [("t", p.2)])))).flatten ++
    (sensors_dht.enum.map fun p => ("dht-" ++ toString p.1, [("t", p.2.1), ("h", p.2.2)]))

/-- The successive values of the shared field after each `self.sensors[id] = ...`
assignment in `read_sensors`, starting from table `acc`. -/
def readSensorsRun : Table → List (String × Reading) → List Table
  | _, [] => []
  | acc, (k, v) :: rest =>
      dictInsert acc k v :: readSensorsRun (dictInsert acc k v) rest

/-- Every value the shared field `self.sensors` takes during `read_sensors`, in order:
first the fresh empty dict assigned by `self.sensors = {}`, then the table after each
per-sensor assignment. -/
def readSensorsStates (sensors_ds : List (List (String × ℚ)))
    (sensors_dht : List (ℚ × ℚ)) : List Table :=
  ([] : Table) :: readSensorsRun [] (readSensorsItems sensors_ds sensors_dht)

/-- The completed reading table at the end of `read_sensors`. -/
def readSensorsFinal (sensors_ds : List (List (String × ℚ)))
    (sensors_dht : List (ℚ × ℚ)) : Table :=
  (readSensorsItems sensors_ds sensors_dht).foldl (fun t kv => dictInsert t kv.1 kv.2) []

/-- Inserting a fresh key into a dict appends the binding at the end. -/
theorem dictInsert_of_not_mem {α : Type} :
    ∀ (t : List (String × α)) (k : String) (v : α),
      k ∉ t.map Prod.fst → dictInsert t k v = t ++ [(k, v)] := by
  intro t k v h
  induction t with
  | nil => rfl
  | cons p rest ih =>
      simp only [List.map_cons, List.mem_cons] at h
      push_neg at h
      obtain ⟨hne, hrest⟩ := h
      simp only [dictInsert, if_neg (fun heq : p.1 = k => hne heq.symm), List.cons_append,
        List.cons.injEq, true_and]
      exact ih hrest

/-- Folding fresh-keyed insertions over `acc` appends the items in order. -/
theorem foldl_dictInsert_append {α : Type} :
    ∀ (items : List (String × α)) (acc : List (String × α)),
      (items.map Prod.fst).Nodup →
      (∀ p ∈ items, p.1 ∉ acc.map Prod.fst) →
      items.foldl (fun t kv => dictInsert t kv.1 kv.2) acc = acc ++ items := by
  intro items
  induction items with
  | nil => intro acc _ _; simp
  | cons q rest ih =>
      intro acc hnodup hdisj
      simp only [List.map_cons, List.nodup_cons] at hnodup
      obtain ⟨hq, hrest⟩ := hnodup
      have hins : dictInsert acc q.1 q.2 = acc ++ [(q.1, q.2)] :=
        dictInsert_of_not_mem acc q.1 q.2 (hdisj q (List.mem_cons_self q rest))
      have hdisj2 : ∀ p ∈ rest, p.1 ∉ (acc ++ [(q.1, q.2)]).map Prod.fst := by
        intro p hp
        simp only [List.map_append, List.mem_append, List.map_cons, List.map_nil,
          List.mem_singleton]
        push_neg
        refine ⟨hdisj p (List.mem_cons_of_mem q hp), fun hpq => hq ?_⟩
        rw [← hpq]
        exact List.mem_map_of_mem Prod.fst hp
      calc ((q :: rest).foldl (fun t kv => dictInsert t kv.1 kv.2) acc)
        = rest.foldl (fun t kv => dictInsert t kv.1 kv.2) (acc ++ [(q.1, q.2)]) := by
            rw [List.foldl_cons, hins]
      _ = (acc ++ [(q.1, q.2)]) ++ rest := ih (acc ++ [(q.1, q.2)]) hrest hdisj2
      _ = acc ++ (q :: rest) := by simp

/-- Under fresh keys, every intermediate table of the rebuild run is `acc` extended by a
prefix of the items. -/
theorem readSensorsRun_mem_take :
    ∀ (items : List (String × Reading)) (acc : Table),
      (items.map Prod.fst).Nodup →
      (∀ p ∈ items, p.1 ∉ acc.map Prod.fst) →
      ∀ s ∈ readSensorsRun acc items, ∃ n, s = acc ++ items.take n := by
  intro items
  induction items with
  | nil => intro acc _ _ s hs; cases hs
  | cons q rest ih =>
      intro acc hnodup hdisj s hs
      simp only [List.map_cons, List.nodup_cons] at hnodup
      obtain ⟨hq, hrest⟩ := hnodup
      have hins : dictInsert acc q.1 q.2 = acc ++ [(q.1, q.2)] :=
        dictInsert_of_not_mem acc q.1 q.2 (hdisj q (List.mem_cons_self q rest))
      have hdisj2 : ∀ p ∈ rest, p.1 ∉ (acc ++ [(q.1, q.2)]).map Prod.fst := by
        intro p hp
        simp only [List.map_append, List.mem_append, List.map_cons, List.map_nil,
          List.mem_singleton]
        push_neg
        refine ⟨hdisj p (List.mem_cons_of_mem q hp), fun hpq => hq ?_⟩
        rw [← hpq]
        exact List.mem_map_of_mem Prod.fst hp
      rw [readSensorsRun, hins] at hs
      rcases List.mem_cons.mp hs with hhead | htail
      · exact ⟨1, by simpa using hhead⟩
      · obtain ⟨n, hn⟩ := ih (acc ++ [(q.1, q.2)]) hrest hdisj2 s htail
        exact ⟨n + 1, by simpa [List.take_succ_cons] using hn⟩

/-- Claim C1 counterexample: with a nonempty old table and one discovered bus sensor, the
empty table is one of the values the shared field takes mid-rebuild, and it is neither the
complete old table nor the complete new table — `read_sensors` does not follow
build-then-publish. -/
theorem read_sensors_not_build_then_publish :
    ¬ (∀ s ∈ ([("ds-ab12", [("t", (20 : ℚ))])] : Table) ::
          readSensorsStates [[("ab12", (22 : ℚ))]] [],
        s = ([("ds-ab12", [("t", (20 : ℚ))])] : Table) ∨
        s = readSensorsFinal [[("ab12", (22 : ℚ))]] []) := by
  decide

/-- Claim C1 (amended): `read_sensors` assigns a fresh empty table to the shared field and
then populates it in place, so the first mid-rebuild observation is the empty table; when
the generated sensor ids are distinct, every value the shared field takes during the
rebuild is an initial segment of the complete new table (and the old table itself is never
mutated, readers holding it see complete old data). -/
theorem read_sensors_states_initial_segments :
    ∀ (sensors_ds : List (List (String × ℚ))) (sensors_dht : List (ℚ × ℚ)),
      ((readSensorsItems sensors_ds sensors_dht).map Prod.fst).Nodup →
      (readSensorsStates sensors_ds sensors_dht).head? = some ([] : Table) ∧
      ∀ s ∈ readSensorsStates sensors_ds sensors_dht,
        ∃ n, s = (readSensorsFinal sensors_ds sensors_dht).take n := by
  intro sensors_ds sensors_dht hnodup
  have hfinal : readSensorsFinal sensors_ds sensors_dht =
      readSensorsItems sensors_ds sensors_dht := by
    rw [readSensorsFinal]
    rw [foldl_dictInsert_append (readSensorsItems sensors_ds sensors_dht) [] hnodup
      (by intro p _; simp)]
    simp
  refine ⟨rfl, ?_⟩
  intro s hs
  rcases List.mem_cons.mp hs with hhead | htail
  · exact ⟨0, by simp [hhead]⟩
  · obtain ⟨n, hn⟩ := readSensorsRun_mem_take (readSensorsItems sensors_ds sensors_dht) []
      hnodup (by intro p _; simp) s htail
    rw [hfinal]
    exact ⟨n, by simpa using hn⟩

/-- Witness for the amended C1: one bus device and one DHT sensor produce the distinct ids
`ds-ab12` and `dht-0`, and all mid-rebuild tables are initial segments of the final one. -/
theorem read_sensors_states_initial_segments_witness :
    ((readSensorsItems [[("ab12", (22 : ℚ))]] [((18 : ℚ), (55 : ℚ))]).map Prod.fst).Nodup ∧
    ((readSensorsStates [[("ab12", (22 : ℚ))]] [((18 : ℚ), (55 : ℚ))]).head? =
        some ([] : Table) ∧
      ∀ s ∈ readSensorsStates [[("ab12", (22 : ℚ))]] [((18 : ℚ), (55 : ℚ))],
        ∃ n, s = (readSensorsFinal [[("ab12", (22 : ℚ))]] [((18 : ℚ), (55 : ℚ))]).take n) :=
  ⟨by decide,
    read_sensors_states_initial_segments [[("ab12", (22 : ℚ))]] [((18 : ℚ), (55 : ℚ))]
      (by decide)⟩
